import Mathlib

/-!
Shallow embedding of the authorization layer and broadcast dispatcher of
`bot.py` (Test-quiz-maker). Time (`time.time()`, `datetime.utcnow()`) is a
`Nat` clock parameter. MongoDB lookups are modelled through an explicit
`Store`; a lookup may raise (`LookupResult.err`). The three module-level
caches `SUDO_CACHE`, `TOKEN_CACHE`, `PREMIUM_CACHE` are fields of `BotState`.
Side effects (authoritative lookups, premium deletions) are counted in
`Effects`.
-/

namespace QuizBot

/-- `CACHE_EXPIRY = 60` seconds, bot.py line 54. -/
def CACHE_EXPIRY : Nat := 60

/-- One entry of `SUDO_CACHE` / `TOKEN_CACHE` / `PREMIUM_CACHE`:
a dict `{'result': ..., 'expiry': ...}`. -/
structure CacheEntry where
  result : Bool
  expiry : Nat
deriving DecidableEq, Repr

/-- The three module-level caches (bot.py lines 51-53), keyed by user id. -/
structure BotState where
  sudoCache : Nat → Option CacheEntry
  tokenCache : Nat → Option CacheEntry
  premiumCache : Nat → Option CacheEntry

/-- Result of an awaited MongoDB call: a value, or a raised exception
(caught by the surrounding `try`/`except`). -/
inductive LookupResult (α : Type) where
  | ok : α → LookupResult α
  | err : LookupResult α
deriving DecidableEq, Repr

/-- A document of the `tokens` collection: only the `expires_at` field
matters to the checks (the TTL index `create_ttl_index` is declared on it). -/
structure TokenRec where
  expires_at : Nat
deriving DecidableEq, Repr

/-- A document of the `premium_users` collection: only `expiry_date`
matters to `is_premium`. -/
structure PremiumRec where
  expiry_date : Nat
deriving DecidableEq, Repr

/-- The authoritative store (`DB`): `find_one` against `sudo_users`
(presence as a Bool), `tokens` and `premium_users`. -/
structure Store where
  sudoFind : Nat → LookupResult Bool
  tokenFind : Nat → LookupResult (Option TokenRec)
  premiumFind : Nat → LookupResult (Option PremiumRec)

/-- Process environment: `OWNER_ID` (as a numeric user id when it parses
and matches someone, else `none`) and the global `DB` (possibly `None`). -/
structure Env where
  owner : Option Nat
  db : Option Store

/-- Side-effect counters of one check: authoritative `find_one` calls per
collection and `delete_one` calls on `premium_users`. -/
structure Effects where
  sudoLookups : Nat
  tokenLookups : Nat
  premiumLookups : Nat
  premiumDeletes : Nat
deriving DecidableEq, Repr

/-- No side effects. -/
def Effects.zero : Effects := ⟨0, 0, 0, 0⟩

/-- Componentwise sum of effect counters. -/
def Effects.add (a b : Effects) : Effects :=
  ⟨a.sudoLookups + b.sudoLookups, a.tokenLookups + b.tokenLookups,
   a.premiumLookups + b.premiumLookups, a.premiumDeletes + b.premiumDeletes⟩

/-- Value, new cache state and side effects of one authorization check. -/
structure CheckResult where
  result : Bool
  state : BotState
  effects : Effects

/-- The cache-read pattern shared by all three checks
(`cached = CACHE.get(user_id); if cached and time.time() < cached['expiry']`):
a hit only when an entry exists and its expiry is still in the future. -/
def cacheLookup (c : Option CacheEntry) (now : Nat) : Option Bool :=
  match c with
  | some e => if now < e.expiry then some e.result else none
  | none => none

/-- Point update of a cache map (`CACHE[user_id] = {...}`). -/
def setCache (c : Nat → Option CacheEntry) (u : Nat) (e : CacheEntry) :
    Nat → Option CacheEntry :=
  fun v => if v = u then some e else c v

/-- `is_sudo` (bot.py lines 198-221): cache check, then `OWNER_ID`
comparison, then `sudo_users.find_one`; any exception leaves the result
`False`; the result is always written back with expiry `now + 60`. -/
def is_sudo (env : Env) (st : BotState) (now : Nat) (u : Nat) : CheckResult :=
  match cacheLookup (st.sudoCache u) now with
  | some b => ⟨b, st, Effects.zero⟩
  | none =>
    let rl : Bool × Nat :=
      if env.owner = some u then (true, 0)
      else
        match env.db with
        | none => (false, 0)
        | some store =>
          match store.sudoFind u with
          | LookupResult.ok b => (b, 1)
          | LookupResult.err => (false, 1)
    ⟨rl.1,
     { st with sudoCache := setCache st.sudoCache u ⟨rl.1, now + CACHE_EXPIRY⟩ },
     ⟨rl.2, 0, 0, 0⟩⟩

/-- `is_premium` (bot.py lines 1019-1045): cache check, then
`premium_users.find_one`; a record with `expiry_date > now` yields `True`,
an expired record is deleted (`delete_one`) and yields `False`; exceptions
leave `False`; the result is always written back with expiry `now + 60`. -/
def is_premium (env : Env) (st : BotState) (now : Nat) (u : Nat) : CheckResult :=
  match cacheLookup (st.premiumCache u) now with
  | some b => ⟨b, st, Effects.zero⟩
  | none =>
    let rld : Bool × Nat × Nat :=
      match env.db with
      | none => (false, 0, 0)
      | some store =>
        match store.premiumFind u with
        | LookupResult.ok (some pr) =>
          if now < pr.expiry_date then (true, 1, 0) else (false, 1, 1)
        | LookupResult.ok none => (false, 1, 0)
        | LookupResult.err => (false, 1, 0)
    ⟨rld.1,
     { st with premiumCache := setCache st.premiumCache u ⟨rld.1, now + CACHE_EXPIRY⟩ },
     ⟨0, 0, rld.2.1, rld.2.2⟩⟩

/-- The token-cache-and-store part of `has_valid_token`
(bot.py lines 997-1016): cache check, then `tokens.find_one`; the result is
`token_data is not None` — the `expires_at` field is not compared to the
clock (expiry is left to the store TTL index); exceptions leave `False`;
the result is always written back with expiry `now + 60`. -/
def tokenActive (env : Env) (st : BotState) (now : Nat) (u : Nat) : CheckResult :=
  match cacheLookup (st.tokenCache u) now with
  | some b => ⟨b, st, Effects.zero⟩
  | none =>
    let rl : Bool × Nat :=
      match env.db with
      | none => (false, 0)
      | some store =>
        match store.tokenFind u with
        | LookupResult.ok td => (td.isSome, 1)
        | LookupResult.err => (false, 1)
    ⟨rl.1,
     { st with tokenCache := setCache st.tokenCache u ⟨rl.1, now + CACHE_EXPIRY⟩ },
     ⟨0, rl.2, 0, 0⟩⟩

/-- `has_valid_token` (bot.py lines 992-1016): sudo or premium users are
`True` immediately (line 994), otherwise the token cache and store decide. -/
def has_valid_token (env : Env) (st : BotState) (now : Nat) (u : Nat) :
    CheckResult :=
  let s := is_sudo env st now u
  if s.result then ⟨true, s.state, s.effects⟩
  else
    let p := is_premium env s.state now u
    if p.result then ⟨true, p.state, s.effects.add p.effects⟩
    else
      let t := tokenActive env p.state now u
      ⟨t.result, t.state, (s.effects.add p.effects).add t.effects⟩

/-- `check_access` (bot.py lines 288-297): the gate grants exactly when
`is_sudo or is_premium or has_valid_token` (short-circuit, left to right). -/
def check_access (env : Env) (st : BotState) (now : Nat) (u : Nat) :
    CheckResult :=
  let s := is_sudo env st now u
  if s.result then ⟨true, s.state, s.effects⟩
  else
    let p := is_premium env s.state now u
    if p.result then ⟨true, p.state, s.effects.add p.effects⟩
    else
      let t := has_valid_token env p.state now u
      ⟨t.result, t.state, (s.effects.add p.effects).add t.effects⟩

/-! ### Broadcast dispatcher

The broadcast handlers (`broadcast_command`, `confirm_broadcast`,
`cancel_broadcast` and the dispatch loop) are registered and wrapped in
bot.py (lines 346-353, 1076-1078) but their definitions are not present in
the source tree, so the dispatcher is modelled from the spec. -/

/-- One per-recipient terminal transport response: success, or a permanent
failure carrying a diagnostic tag. -/
inductive Terminal where
  | success : Terminal
  | failure : String → Terminal
deriving DecidableEq, Repr

/-- Modelled from the spec: the external transport's behaviour towards one
recipient — a finite run of `RateLimited(retryAfter)` responses (their
`retryAfter` values in seconds, in order) followed by a terminal response.
The dispatcher retries on every rate-limit signal, so it reaches the
terminal response. -/
structure RecipientPlan where
  rateLimits : List Nat
  terminal : Terminal
deriving DecidableEq, Repr

/-- Terminal per-recipient outcome recorded by the dispatcher. -/
inductive Outcome where
  | sent : Outcome
  | failed : String → Outcome
deriving DecidableEq, Repr

/-- Outcome recorded for a terminal transport response: `sent` on success,
`failed` with the diagnostic on any other response. -/
def Terminal.toOutcome : Terminal → Outcome
  | Terminal.success => Outcome.sent
  | Terminal.failure d => Outcome.failed d

/-- Modelled from the spec (§4.4 step 4, absent from src/): one recipient's
send loop. Each `RateLimited(r)` response causes a sleep of `r + 0.5`
seconds (counted in milliseconds) followed by one re-attempt; the first
non-rate-limited response is terminal. Returns the outcome, the number of
send attempts, and the total retry delay in milliseconds. -/
def sendOne (plan : RecipientPlan) : Outcome × Nat × Nat :=
  match plan with
  | ⟨[], t⟩ => (t.toOutcome, 1, 0)
  | ⟨r :: rest, t⟩ =>
    let rec' := sendOne ⟨rest, t⟩
    (rec'.1, rec'.2.1 + 1, rec'.2.2 + (r * 1000 + 500))

/-- Modelled from the spec (§4.4, absent from src/): the dispatcher walks
the recipient list in batches of 50; each batch resolves every member's
send (including retries) before the next batch starts. The per-recipient
terminal outcomes, in recipient order. -/
def dispatch (plans : List RecipientPlan) : List Outcome :=
  if plans = [] then []
  else (plans.take 50).map (fun p => (sendOne p).1) ++ dispatch (plans.drop 50)
termination_by plans.length
decreasing_by
  have hne : plans ≠ [] := by assumption
  have h0 : 0 < plans.length := List.length_pos.mpr hne
  simp only [List.length_drop]
  omega

/-- Whether an outcome is a successful send. -/
def isSent : Outcome → Bool
  | Outcome.sent => true
  | Outcome.failed _ => false

/-- Number of `sent` outcomes in a report. -/
def sentCount (outs : List Outcome) : Nat :=
  (outs.filter isSent).length

/-- Number of `failed` outcomes in a report. -/
def failedCount (outs : List Outcome) : Nat :=
  (outs.filter (fun o => !(isSent o))).length

/-- Modelled from the spec (§4.4/§5, absent from src/): scheduler state of a
running broadcast job — sizes of the batches not yet begun, tasks of the
current batch not yet started, tasks holding one of the 5 semaphore slots
(sending, or sleeping before a retry), and tasks with a terminal outcome. -/
structure DispatchState where
  batches : List Nat
  pending : Nat
  inFlight : Nat
  done : Nat
deriving DecidableEq, Repr

/-- Modelled from the spec (§4.4/§5, absent from src/): one scheduler step of
the bounded dispatcher. A task starts only by acquiring one of the 5
semaphore permits; a terminal response (success or permanent failure)
releases the permit; a rate-limit response keeps the permit through the
sleep and re-attempt; a new batch loads only once the current batch has
fully drained (the batch barrier). -/
inductive DStep : DispatchState → DispatchState → Prop where
  | start (s : DispatchState) (hp : 0 < s.pending) (hf : s.inFlight < 5) :
      DStep s ⟨s.batches, s.pending - 1, s.inFlight + 1, s.done⟩
  | finish (s : DispatchState) (hf : 0 < s.inFlight) :
      DStep s ⟨s.batches, s.pending, s.inFlight - 1, s.done + 1⟩
  | retry (s : DispatchState) (hf : 0 < s.inFlight) : DStep s s
  | loadBatch (s : DispatchState) (b : Nat) (rest : List Nat)
      (hb : s.batches = b :: rest) (hp : s.pending = 0) (hf : s.inFlight = 0) :
      DStep s ⟨rest, b, 0, s.done⟩

/-- Initial scheduler state of a job whose recipient list is cut into
batches of the given sizes: nothing started, no slot held. -/
def initState (batchSizes : List Nat) : DispatchState :=
  ⟨batchSizes, 0, 0, 0⟩

/-! ### Helper lemmas about the authorization checks -/

/-- A freshly written entry is a hit at the time it was written. -/
theorem cacheLookup_fresh (r : Bool) (now : Nat) :
    cacheLookup (some ⟨r, now + CACHE_EXPIRY⟩) now = some r := by
  simp [cacheLookup, CACHE_EXPIRY]

/-- `is_sudo` never touches the premium cache. -/
theorem is_sudo_premiumCache (env : Env) (st : BotState) (now u : Nat) :
    (is_sudo env st now u).state.premiumCache = st.premiumCache := by
  unfold is_sudo
  cases h : cacheLookup (st.sudoCache u) now <;> simp

/-- `is_sudo` never touches the token cache. -/
theorem is_sudo_tokenCache (env : Env) (st : BotState) (now u : Nat) :
    (is_sudo env st now u).state.tokenCache = st.tokenCache := by
  unfold is_sudo
  cases h : cacheLookup (st.sudoCache u) now <;> simp

/-- `is_premium` never touches the sudo cache. -/
theorem is_premium_sudoCache (env : Env) (st : BotState) (now u : Nat) :
    (is_premium env st now u).state.sudoCache = st.sudoCache := by
  unfold is_premium
  cases h : cacheLookup (st.premiumCache u) now <;> simp

/-- `is_premium` never touches the token cache. -/
theorem is_premium_tokenCache (env : Env) (st : BotState) (now u : Nat) :
    (is_premium env st now u).state.tokenCache = st.tokenCache := by
  unfold is_premium
  cases h : cacheLookup (st.premiumCache u) now <;> simp

/-- `tokenActive` never touches the sudo cache. -/
theorem tokenActive_sudoCache (env : Env) (st : BotState) (now u : Nat) :
    (tokenActive env st now u).state.sudoCache = st.sudoCache := by
  unfold tokenActive
  cases h : cacheLookup (st.tokenCache u) now <;> simp

/-- `tokenActive` never touches the premium cache. -/
theorem tokenActive_premiumCache (env : Env) (st : BotState) (now u : Nat) :
    (tokenActive env st now u).state.premiumCache = st.premiumCache := by
  unfold tokenActive
  cases h : cacheLookup (st.tokenCache u) now <;> simp

/-- The value and effects of `is_sudo` depend only on the sudo cache. -/
theorem is_sudo_congr (env : Env) {st st' : BotState} (now u : Nat)
    (h : st.sudoCache = st'.sudoCache) :
    (is_sudo env st now u).result = (is_sudo env st' now u).result ∧
      (is_sudo env st now u).effects = (is_sudo env st' now u).effects := by
  unfold is_sudo
  rw [h]
  cases cacheLookup (st'.sudoCache u) now <;> simp

/-- The value and effects of `is_premium` depend only on the premium cache. -/
theorem is_premium_congr (env : Env) {st st' : BotState} (now u : Nat)
    (h : st.premiumCache = st'.premiumCache) :
    (is_premium env st now u).result = (is_premium env st' now u).result ∧
      (is_premium env st now u).effects = (is_premium env st' now u).effects := by
  unfold is_premium
  rw [h]
  cases cacheLookup (st'.premiumCache u) now <;> simp

/-- The value and effects of `tokenActive` depend only on the token cache. -/
theorem tokenActive_congr (env : Env) {st st' : BotState} (now u : Nat)
    (h : st.tokenCache = st'.tokenCache) :
    (tokenActive env st now u).result = (tokenActive env st' now u).result ∧
      (tokenActive env st now u).effects = (tokenActive env st' now u).effects := by
  unfold tokenActive
  rw [h]
  cases cacheLookup (st'.tokenCache u) now <;> simp

/-- Right after `is_sudo` runs, its own cache holds its result (either the
hit that produced it, or the entry just written with a full TTL). -/
theorem is_sudo_post (env : Env) (st : BotState) (now u : Nat) :
    cacheLookup ((is_sudo env st now u).state.sudoCache u) now =
      some (is_sudo env st now u).result := by
  unfold is_sudo
  cases h : cacheLookup (st.sudoCache u) now with
  | some b => simpa using h
  | none => simp [setCache, cacheLookup, CACHE_EXPIRY]

/-- Right after `is_premium` runs, its own cache holds its result. -/
theorem is_premium_post (env : Env) (st : BotState) (now u : Nat) :
    cacheLookup ((is_premium env st now u).state.premiumCache u) now =
      some (is_premium env st now u).result := by
  unfold is_premium
  cases h : cacheLookup (st.premiumCache u) now with
  | some b => simpa using h
  | none => simp [setCache, cacheLookup, CACHE_EXPIRY]

/-- A check whose cache already answers returns that answer, leaves the
state untouched and performs no authoritative work (`is_sudo` case). -/
theorem is_sudo_hit (env : Env) (st : BotState) (now u : Nat) (b : Bool)
    (h : cacheLookup (st.sudoCache u) now = some b) :
    is_sudo env st now u = ⟨b, st, Effects.zero⟩ := by
  unfold is_sudo
  rw [h]

/-- Cache-hit behaviour of `is_premium`. -/
theorem is_premium_hit (env : Env) (st : BotState) (now u : Nat) (b : Bool)
    (h : cacheLookup (st.premiumCache u) now = some b) :
    is_premium env st now u = ⟨b, st, Effects.zero⟩ := by
  unfold is_premium
  rw [h]

/-- Cache-hit behaviour of `tokenActive`. -/
theorem tokenActive_hit (env : Env) (st : BotState) (now u : Nat) (b : Bool)
    (h : cacheLookup (st.tokenCache u) now = some b) :
    tokenActive env st now u = ⟨b, st, Effects.zero⟩ := by
  unfold tokenActive
  rw [h]

/-- Point removal of a cache entry. -/
def eraseCache (c : Nat → Option CacheEntry) (u : Nat) : Nat → Option CacheEntry :=
  fun v => if v = u then none else c v

/-- After a cache miss, `is_sudo` leaves a fresh entry holding its result
with a full TTL. -/
theorem is_sudo_miss_cache (env : Env) (st : BotState) (now u : Nat)
    (h : cacheLookup (st.sudoCache u) now = none) :
    (is_sudo env st now u).state.sudoCache u =
      some ⟨(is_sudo env st now u).result, now + CACHE_EXPIRY⟩ := by
  unfold is_sudo
  rw [h]
  simp [setCache]

/-- After a cache miss, `is_premium` leaves a fresh entry holding its
result with a full TTL. -/
theorem is_premium_miss_cache (env : Env) (st : BotState) (now u : Nat)
    (h : cacheLookup (st.premiumCache u) now = none) :
    (is_premium env st now u).state.premiumCache u =
      some ⟨(is_premium env st now u).result, now + CACHE_EXPIRY⟩ := by
  unfold is_premium
  rw [h]
  simp [setCache]

/-- After a cache miss, `tokenActive` leaves a fresh entry holding its
result with a full TTL. -/
theorem tokenActive_miss_cache (env : Env) (st : BotState) (now u : Nat)
    (h : cacheLookup (st.tokenCache u) now = none) :
    (tokenActive env st now u).state.tokenCache u =
      some ⟨(tokenActive env st now u).result, now + CACHE_EXPIRY⟩ := by
  unfold tokenActive
  rw [h]
  simp [setCache]

/-- On a cache miss with the database up and no owner short-cut, `is_sudo`
performs exactly one authoritative lookup. -/
theorem is_sudo_miss_lookups (env : Env) (st : BotState) (now u : Nat)
    (store : Store) (h : cacheLookup (st.sudoCache u) now = none)
    (ho : env.owner ≠ some u) (hdb : env.db = some store) :
    (is_sudo env st now u).effects.sudoLookups = 1 := by
  unfold is_sudo
  rw [h]
  simp only [if_neg ho, hdb]
  cases store.sudoFind u <;> simp

/-- On a cache miss with the database up, `is_premium` performs exactly one
authoritative lookup. -/
theorem is_premium_miss_lookups (env : Env) (st : BotState) (now u : Nat)
    (store : Store) (h : cacheLookup (st.premiumCache u) now = none)
    (hdb : env.db = some store) :
    (is_premium env st now u).effects.premiumLookups = 1 := by
  unfold is_premium
  rw [h]
  simp only [hdb]
  cases hf : store.premiumFind u with
  | ok td =>
    cases td with
    | some pr => by_cases hlt : now < pr.expiry_date <;> simp [hlt]
    | none => simp
  | err => simp

/-- On a cache miss with the database up, `tokenActive` performs exactly
one authoritative lookup. -/
theorem tokenActive_miss_lookups (env : Env) (st : BotState) (now u : Nat)
    (store : Store) (h : cacheLookup (st.tokenCache u) now = none)
    (hdb : env.db = some store) :
    (tokenActive env st now u).effects.tokenLookups = 1 := by
  unfold tokenActive
  rw [h]
  simp only [hdb]
  cases store.tokenFind u <;> simp

/-- A sudo-cache entry at or past its expiry is treated exactly as an
absent entry: same decision, same side effects. -/
theorem is_sudo_stale_ignored (env : Env) (st : BotState) (now u : Nat)
    (e : CacheEntry) (h : st.sudoCache u = some e) (hexp : e.expiry ≤ now) :
    (is_sudo env st now u).result =
      (is_sudo env { st with sudoCache := eraseCache st.sudoCache u } now u).result ∧
    (is_sudo env st now u).effects =
      (is_sudo env { st with sudoCache := eraseCache st.sudoCache u } now u).effects := by
  unfold is_sudo
  simp [cacheLookup, eraseCache, h, Nat.not_lt.mpr hexp]

/-- A premium-cache entry at or past its expiry is treated exactly as an
absent entry: same decision, same side effects. -/
theorem is_premium_stale_ignored (env : Env) (st : BotState) (now u : Nat)
    (e : CacheEntry) (h : st.premiumCache u = some e) (hexp : e.expiry ≤ now) :
    (is_premium env st now u).result =
      (is_premium env { st with premiumCache := eraseCache st.premiumCache u } now u).result ∧
    (is_premium env st now u).effects =
      (is_premium env { st with premiumCache := eraseCache st.premiumCache u } now u).effects := by
  unfold is_premium
  simp [cacheLookup, eraseCache, h, Nat.not_lt.mpr hexp]

/-- A token-cache entry at or past its expiry is treated exactly as an
absent entry: same decision, same side effects. -/
theorem tokenActive_stale_ignored (env : Env) (st : BotState) (now u : Nat)
    (e : CacheEntry) (h : st.tokenCache u = some e) (hexp : e.expiry ≤ now) :
    (tokenActive env st now u).result =
      (tokenActive env { st with tokenCache := eraseCache st.tokenCache u } now u).result ∧
    (tokenActive env st now u).effects =
      (tokenActive env { st with tokenCache := eraseCache st.tokenCache u } now u).effects := by
  unfold tokenActive
  simp [cacheLookup, eraseCache, h, Nat.not_lt.mpr hexp]

/-- `is_sudo` never performs a token lookup. -/
theorem is_sudo_no_token_lookup (env : Env) (st : BotState) (now u : Nat) :
    (is_sudo env st now u).effects.tokenLookups = 0 := by
  unfold is_sudo
  cases cacheLookup (st.sudoCache u) now <;> simp [Effects.zero]

/-- `is_premium` never performs a token lookup. -/
theorem is_premium_no_token_lookup (env : Env) (st : BotState) (now u : Nat) :
    (is_premium env st now u).effects.tokenLookups = 0 := by
  unfold is_premium
  cases cacheLookup (st.premiumCache u) now <;> simp [Effects.zero]

/-- When the `sudo_users` lookup raises and the owner short-cut does not
apply, an uncached `is_sudo` resolves to `false`. -/
theorem is_sudo_err_false (env : Env) (st : BotState) (now u : Nat)
    (store : Store) (h : cacheLookup (st.sudoCache u) now = none)
    (ho : env.owner ≠ some u) (hdb : env.db = some store)
    (he : store.sudoFind u = LookupResult.err) :
    (is_sudo env st now u).result = false := by
  unfold is_sudo
  rw [h]
  simp [if_neg ho, hdb, he]

/-- When the `premium_users` lookup raises, an uncached `is_premium`
resolves to `false`. -/
theorem is_premium_err_false (env : Env) (st : BotState) (now u : Nat)
    (store : Store) (h : cacheLookup (st.premiumCache u) now = none)
    (hdb : env.db = some store)
    (he : store.premiumFind u = LookupResult.err) :
    (is_premium env st now u).result = false := by
  unfold is_premium
  rw [h]
  simp [hdb, he]

/-- When the `tokens` lookup raises, an uncached `tokenActive` resolves to
`false`. -/
theorem tokenActive_err_false (env : Env) (st : BotState) (now u : Nat)
    (store : Store) (h : cacheLookup (st.tokenCache u) now = none)
    (hdb : env.db = some store)
    (he : store.tokenFind u = LookupResult.err) :
    (tokenActive env st now u).result = false := by
  unfold tokenActive
  rw [h]
  simp [hdb, he]

/-! ### Claim theorems -/

/-- C1: for every environment, cache state, time and user, the gate
decision of `check_access` equals the disjunction of the three
authorization predicates — sudo, active premium, active token (the pure
token check `tokenActive`, each consulting its own cache kind) — all
evaluated on the same initial state. -/
theorem access_gate_is_disjunction (env : Env) (st : BotState) (now u : Nat) :
    (check_access env st now u).result =
      ((is_sudo env st now u).result || (is_premium env st now u).result ||
        (tokenActive env st now u).result) := by
  cases hs : (is_sudo env st now u).result with
  | true => simp [check_access, hs]
  | false =>
    have hpc := (is_premium_congr env now u (is_sudo_premiumCache env st now u)).1
    cases hp : (is_premium env (is_sudo env st now u).state now u).result with
    | true =>
      have hp' : (is_premium env st now u).result = true := hpc.symm.trans hp
      simp [check_access, hs, hp, hp']
    | false =>
      have hp' : (is_premium env st now u).result = false := hpc.symm.trans hp
      have hsud : cacheLookup
          ((is_premium env (is_sudo env st now u).state now u).state.sudoCache u)
          now = some false := by
        rw [is_premium_sudoCache, is_sudo_post, hs]
      have hprem : cacheLookup
          ((is_premium env (is_sudo env st now u).state now u).state.premiumCache u)
          now = some false := by
        rw [is_premium_post, hp]
      have h1 := is_sudo_hit env _ now u false hsud
      have h2 := is_premium_hit env _ now u false hprem
      have htc : ((is_premium env (is_sudo env st now u).state now u).state).tokenCache
          = st.tokenCache := by
        rw [is_premium_tokenCache, is_sudo_tokenCache]
      have ht := (tokenActive_congr env now u htc).1
      simp [check_access, has_valid_token, hs, hp, hp', h1, h2, ht]

/-- Cache state with all three caches empty. -/
def emptyState : BotState := ⟨fun _ => none, fun _ => none, fun _ => none⟩

/-- Concrete store: no sudo entries, no tokens, every user holding a
premium record that expires at time 50. -/
def storeExpiredPremium : Store :=
  ⟨fun _ => LookupResult.ok false, fun _ => LookupResult.ok none,
   fun _ => LookupResult.ok (some ⟨50⟩)⟩

/-- C2: a user whose authoritative premium record has an expiry timestamp
not strictly greater than the current time gets `false` from an uncached
premium check, together with exactly one deletion call at the store. -/
theorem premium_expired_self_cleaning (env : Env) (st : BotState) (now u : Nat)
    (store : Store) (pr : PremiumRec)
    (hmiss : cacheLookup (st.premiumCache u) now = none)
    (hdb : env.db = some store)
    (hfind : store.premiumFind u = LookupResult.ok (some pr))
    (hexp : pr.expiry_date ≤ now) :
    (is_premium env st now u).result = false ∧
      (is_premium env st now u).effects.premiumDeletes = 1 := by
  unfold is_premium
  rw [hmiss]
  simp [hdb, hfind, Nat.not_lt.mpr hexp]

/-- Witness for C2 at a concrete input: user 7, clock 100, a premium record
expired at 50. -/
theorem premium_expired_self_cleaning_witness :
    (is_premium ⟨none, some storeExpiredPremium⟩ emptyState 100 7).result = false ∧
      (is_premium ⟨none, some storeExpiredPremium⟩ emptyState 100 7).effects.premiumDeletes = 1 :=
  premium_expired_self_cleaning ⟨none, some storeExpiredPremium⟩ emptyState 100 7
    storeExpiredPremium ⟨50⟩ rfl rfl rfl (by decide)

/-- Concrete store: no sudo entries, no premium records, every user holding
a token record whose `expires_at` is 5. -/
def storeStaleToken : Store :=
  ⟨fun _ => LookupResult.ok false, fun _ => LookupResult.ok (some ⟨5⟩),
   fun _ => LookupResult.ok none⟩

/-- C3 counterexample: at time 10 the stored token record has
`expires_at = 5`, which is not strictly greater than the current time, yet
both the pure token check and `has_valid_token` report an active token —
`has_valid_token` compares nothing against the clock (`token_data is not
None` is the whole test, bot.py line 1007). -/
theorem token_expiry_not_compared_cex :
    (tokenActive ⟨none, some storeStaleToken⟩ emptyState 10 1).result = true ∧
      (has_valid_token ⟨none, some storeStaleToken⟩ emptyState 10 1).result = true ∧
      storeStaleToken.tokenFind 1 = LookupResult.ok (some ⟨5⟩) ∧ ¬ (10 : Nat) < 5 := by
  refine ⟨rfl, rfl, rfl, by decide⟩

/-- Whether the store currently holds a token record for the user and the
lookup does not raise. -/
def tokenRecordPresent (store : Store) (u : Nat) : Bool :=
  match store.tokenFind u with
  | LookupResult.ok (some _) => true
  | LookupResult.ok none => false
  | LookupResult.err => false

/-- C3 amended: an uncached token-validity check returns true exactly when
the store lookup succeeds and finds a token record for the user — the
record's expiry field is never compared to the clock by the check itself
(expiry is enforced only by the store-side TTL index of
`create_ttl_index`), so a still-stored record at or past its expiry also
yields an active-token decision. -/
theorem token_presence_decides (env : Env) (st : BotState) (now u : Nat)
    (store : Store) (hdb : env.db = some store)
    (hmiss : cacheLookup (st.tokenCache u) now = none) :
    (tokenActive env st now u).result = tokenRecordPresent store u := by
  unfold tokenActive tokenRecordPresent
  rw [hmiss]
  simp only [hdb]
  cases htf : store.tokenFind u with
  | ok td => cases td <;> simp
  | err => simp

/-- Witness for the amended C3 at a concrete input: the stale stored token
of `storeStaleToken` makes the uncached check return true. -/
theorem token_presence_decides_witness :
    (tokenActive ⟨none, some storeStaleToken⟩ emptyState 10 1).result =
      tokenRecordPresent storeStaleToken 1 :=
  token_presence_decides ⟨none, some storeStaleToken⟩ emptyState 10 1
    storeStaleToken rfl rfl

/-- C5: every check that misses its cache writes its resolution — whatever
boolean it is, including a `false` from a raised lookup — back into its own
cache as a fresh entry expiring at `now + 60`, overwriting any prior entry
for that user. -/
theorem resolution_written_back (env : Env) (st : BotState) (now u : Nat)
    (hs : cacheLookup (st.sudoCache u) now = none)
    (hp : cacheLookup (st.premiumCache u) now = none)
    (ht : cacheLookup (st.tokenCache u) now = none) :
    (is_sudo env st now u).state.sudoCache u =
        some ⟨(is_sudo env st now u).result, now + CACHE_EXPIRY⟩ ∧
      (is_premium env st now u).state.premiumCache u =
        some ⟨(is_premium env st now u).result, now + CACHE_EXPIRY⟩ ∧
      (tokenActive env st now u).state.tokenCache u =
        some ⟨(tokenActive env st now u).result, now + CACHE_EXPIRY⟩ :=
  ⟨is_sudo_miss_cache env st now u hs, is_premium_miss_cache env st now u hp,
   tokenActive_miss_cache env st now u ht⟩

/-- Concrete store in which every lookup raises. -/
def storeAllErr : Store :=
  ⟨fun _ => LookupResult.err, fun _ => LookupResult.err, fun _ => LookupResult.err⟩

/-- Witness for C5 at a concrete input: user 2, clock 100, all lookups
raising — the `false` results are still cached until 160. -/
theorem resolution_written_back_witness :
    (is_sudo ⟨none, some storeAllErr⟩ emptyState 100 2).state.sudoCache 2 =
        some ⟨(is_sudo ⟨none, some storeAllErr⟩ emptyState 100 2).result, 100 + CACHE_EXPIRY⟩ ∧
      (is_premium ⟨none, some storeAllErr⟩ emptyState 100 2).state.premiumCache 2 =
        some ⟨(is_premium ⟨none, some storeAllErr⟩ emptyState 100 2).result, 100 + CACHE_EXPIRY⟩ ∧
      (tokenActive ⟨none, some storeAllErr⟩ emptyState 100 2).state.tokenCache 2 =
        some ⟨(tokenActive ⟨none, some storeAllErr⟩ emptyState 100 2).result, 100 + CACHE_EXPIRY⟩ :=
  resolution_written_back ⟨none, some storeAllErr⟩ emptyState 100 2 rfl rfl rfl

/-- C9: a user for whom the sudo check or the premium check says `true`
gets `true` from `has_valid_token` immediately: the token cache is left
untouched and no token lookup reaches the store. -/
theorem sudo_or_premium_skips_token (env : Env) (st : BotState) (now u : Nat)
    (h : (is_sudo env st now u).result = true ∨
      (is_premium env st now u).result = true) :
    (has_valid_token env st now u).result = true ∧
      (has_valid_token env st now u).state.tokenCache = st.tokenCache ∧
      (has_valid_token env st now u).effects.tokenLookups = 0 := by
  cases hs : (is_sudo env st now u).result with
  | true =>
    refine ⟨?_, ?_, ?_⟩ <;>
      simp [has_valid_token, hs, is_sudo_tokenCache, is_sudo_no_token_lookup]
  | false =>
    have hp' : (is_premium env st now u).result = true := by
      rcases h with h | h
      · exact absurd h (by simp [hs])
      · exact h
    have hpc := (is_premium_congr env now u (is_sudo_premiumCache env st now u)).1
    have hp : (is_premium env (is_sudo env st now u).state now u).result = true :=
      hpc.trans hp'
    refine ⟨?_, ?_, ?_⟩ <;>
      simp [has_valid_token, hs, hp, is_sudo_tokenCache, is_premium_tokenCache,
        Effects.add, is_sudo_no_token_lookup, is_premium_no_token_lookup]

/-- Witness for C9 at a concrete input: user 5 is the configured owner, so
the sudo check answers true and the token machinery is bypassed. -/
theorem sudo_or_premium_skips_token_witness :
    (has_valid_token ⟨some 5, none⟩ emptyState 0 5).result = true ∧
      (has_valid_token ⟨some 5, none⟩ emptyState 0 5).state.tokenCache =
        emptyState.tokenCache ∧
      (has_valid_token ⟨some 5, none⟩ emptyState 0 5).effects.tokenLookups = 0 :=
  sudo_or_premium_skips_token ⟨some 5, none⟩ emptyState 0 5 (Or.inl rfl)

/-- C10: when every store lookup raises, each uncached check resolves to
`false`, caches that `false` until `now + 60`, and a re-check at any time
before that expiry is a pure cache hit — it denies again with no state
change and no fresh lookup. -/
theorem store_error_fails_closed (env : Env) (st : BotState) (now u : Nat)
    (store : Store) (now' : Nat)
    (hdb : env.db = some store) (ho : env.owner ≠ some u)
    (hs : cacheLookup (st.sudoCache u) now = none)
    (hp : cacheLookup (st.premiumCache u) now = none)
    (ht : cacheLookup (st.tokenCache u) now = none)
    (hse : store.sudoFind u = LookupResult.err)
    (hpe : store.premiumFind u = LookupResult.err)
    (hte : store.tokenFind u = LookupResult.err)
    (hlt : now' < now + CACHE_EXPIRY) :
    (is_sudo env st now u).result = false ∧
      is_sudo env (is_sudo env st now u).state now' u =
        ⟨false, (is_sudo env st now u).state, Effects.zero⟩ ∧
      (is_premium env st now u).result = false ∧
      is_premium env (is_premium env st now u).state now' u =
        ⟨false, (is_premium env st now u).state, Effects.zero⟩ ∧
      (tokenActive env st now u).result = false ∧
      tokenActive env (tokenActive env st now u).state now' u =
        ⟨false, (tokenActive env st now u).state, Effects.zero⟩ := by
  have h1 := is_sudo_err_false env st now u store hs ho hdb hse
  have hc1 := is_sudo_miss_cache env st now u hs
  rw [h1] at hc1
  have hl1 : cacheLookup ((is_sudo env st now u).state.sudoCache u) now' =
      some false := by
    rw [hc1]; simp [cacheLookup, hlt]
  have h2 := is_premium_err_false env st now u store hp hdb hpe
  have hc2 := is_premium_miss_cache env st now u hp
  rw [h2] at hc2
  have hl2 : cacheLookup ((is_premium env st now u).state.premiumCache u) now' =
      some false := by
    rw [hc2]; simp [cacheLookup, hlt]
  have h3 := tokenActive_err_false env st now u store ht hdb hte
  have hc3 := tokenActive_miss_cache env st now u ht
  rw [h3] at hc3
  have hl3 : cacheLookup ((tokenActive env st now u).state.tokenCache u) now' =
      some false := by
    rw [hc3]; simp [cacheLookup, hlt]
  exact ⟨h1, is_sudo_hit env _ now' u false hl1, h2,
    is_premium_hit env _ now' u false hl2, h3,
    tokenActive_hit env _ now' u false hl3⟩

/-- Witness for C10 at a concrete input: user 2, every lookup raising at
clock 100, re-checked at clock 150 (inside the 60-second window). -/
theorem store_error_fails_closed_witness :
    (is_sudo ⟨none, some storeAllErr⟩ emptyState 100 2).result = false ∧
      is_sudo ⟨none, some storeAllErr⟩
          (is_sudo ⟨none, some storeAllErr⟩ emptyState 100 2).state 150 2 =
        ⟨false, (is_sudo ⟨none, some storeAllErr⟩ emptyState 100 2).state, Effects.zero⟩ ∧
      (is_premium ⟨none, some storeAllErr⟩ emptyState 100 2).result = false ∧
      is_premium ⟨none, some storeAllErr⟩
          (is_premium ⟨none, some storeAllErr⟩ emptyState 100 2).state 150 2 =
        ⟨false, (is_premium ⟨none, some storeAllErr⟩ emptyState 100 2).state, Effects.zero⟩ ∧
      (tokenActive ⟨none, some storeAllErr⟩ emptyState 100 2).result = false ∧
      tokenActive ⟨none, some storeAllErr⟩
          (tokenActive ⟨none, some storeAllErr⟩ emptyState 100 2).state 150 2 =
        ⟨false, (tokenActive ⟨none, some storeAllErr⟩ emptyState 100 2).state, Effects.zero⟩ :=
  store_error_fails_closed ⟨none, some storeAllErr⟩ emptyState 100 2 storeAllErr 150
    rfl (by decide) rfl rfl rfl rfl rfl rfl (by decide)

/-- C4: for each of the three checks, a decision cached on a miss at time
`T` is served from the cache at `T + 59` (same result, no authoritative
work), while a re-check at `T + 61` performs exactly one fresh
authoritative lookup; and in general an entry whose expiry is not in the
future is never returned as a hit — the check behaves exactly as if the
entry were absent, in decision and in side effects. -/
theorem cache_ttl_window (env : Env) (store : Store) (st : BotState) (T u : Nat)
    (hdb : env.db = some store) (ho : env.owner = none)
    (hs : cacheLookup (st.sudoCache u) T = none)
    (hp : cacheLookup (st.premiumCache u) T = none)
    (ht : cacheLookup (st.tokenCache u) T = none) :
    ((is_sudo env (is_sudo env st T u).state (T + 59) u).result =
        (is_sudo env st T u).result ∧
      (is_sudo env (is_sudo env st T u).state (T + 59) u).effects = Effects.zero ∧
      (is_premium env (is_premium env st T u).state (T + 59) u).result =
        (is_premium env st T u).result ∧
      (is_premium env (is_premium env st T u).state (T + 59) u).effects = Effects.zero ∧
      (tokenActive env (tokenActive env st T u).state (T + 59) u).result =
        (tokenActive env st T u).result ∧
      (tokenActive env (tokenActive env st T u).state (T + 59) u).effects = Effects.zero) ∧
    ((is_sudo env (is_sudo env st T u).state (T + 61) u).effects.sudoLookups = 1 ∧
      (is_premium env (is_premium env st T u).state (T + 61) u).effects.premiumLookups = 1 ∧
      (tokenActive env (tokenActive env st T u).state (T + 61) u).effects.tokenLookups = 1) ∧
    (∀ (st' : BotState) (now : Nat) (e : CacheEntry),
      (st'.sudoCache u = some e → e.expiry ≤ now →
        (is_sudo env st' now u).result =
          (is_sudo env { st' with sudoCache := eraseCache st'.sudoCache u } now u).result ∧
        (is_sudo env st' now u).effects =
          (is_sudo env { st' with sudoCache := eraseCache st'.sudoCache u } now u).effects) ∧
      (st'.premiumCache u = some e → e.expiry ≤ now →
        (is_premium env st' now u).result =
          (is_premium env { st' with premiumCache := eraseCache st'.premiumCache u } now u).result ∧
        (is_premium env st' now u).effects =
          (is_premium env { st' with premiumCache := eraseCache st'.premiumCache u } now u).effects) ∧
      (st'.tokenCache u = some e → e.expiry ≤ now →
        (tokenActive env st' now u).result =
          (tokenActive env { st' with tokenCache := eraseCache st'.tokenCache u } now u).result ∧
        (tokenActive env st' now u).effects =
          (tokenActive env { st' with tokenCache := eraseCache st'.tokenCache u } now u).effects)) := by
  have hlt59 : T + 59 < T + CACHE_EXPIRY := by unfold CACHE_EXPIRY; omega
  have hnot61 : ¬ T + 61 < T + CACHE_EXPIRY := by unfold CACHE_EXPIRY; omega
  have ho' : env.owner ≠ some u := by simp [ho]
  have hcs := is_sudo_miss_cache env st T u hs
  have hcp := is_premium_miss_cache env st T u hp
  have hct := tokenActive_miss_cache env st T u ht
  have hs59 : cacheLookup ((is_sudo env st T u).state.sudoCache u) (T + 59) =
      some (is_sudo env st T u).result := by
    rw [hcs]; simp [cacheLookup, hlt59]
  have hp59 : cacheLookup ((is_premium env st T u).state.premiumCache u) (T + 59) =
      some (is_premium env st T u).result := by
    rw [hcp]; simp [cacheLookup, hlt59]
  have ht59 : cacheLookup ((tokenActive env st T u).state.tokenCache u) (T + 59) =
      some (tokenActive env st T u).result := by
    rw [hct]; simp [cacheLookup, hlt59]
  have hs61 : cacheLookup ((is_sudo env st T u).state.sudoCache u) (T + 61) = none := by
    rw [hcs]; simp [cacheLookup, hnot61]
  have hp61 : cacheLookup ((is_premium env st T u).state.premiumCache u) (T + 61) = none := by
    rw [hcp]; simp [cacheLookup, hnot61]
  have ht61 : cacheLookup ((tokenActive env st T u).state.tokenCache u) (T + 61) = none := by
    rw [hct]; simp [cacheLookup, hnot61]
  refine ⟨⟨?_, ?_, ?_, ?_, ?_, ?_⟩, ⟨?_, ?_, ?_⟩, ?_⟩
  · rw [is_sudo_hit env _ (T + 59) u _ hs59]
  · rw [is_sudo_hit env _ (T + 59) u _ hs59]
  · rw [is_premium_hit env _ (T + 59) u _ hp59]
  · rw [is_premium_hit env _ (T + 59) u _ hp59]
  · rw [tokenActive_hit env _ (T + 59) u _ ht59]
  · rw [tokenActive_hit env _ (T + 59) u _ ht59]
  · exact is_sudo_miss_lookups env _ (T + 61) u store hs61 ho' hdb
  · exact is_premium_miss_lookups env _ (T + 61) u store hp61 hdb
  · exact tokenActive_miss_lookups env _ (T + 61) u store ht61 hdb
  · intro st' now e
    exact ⟨fun h1 h2 => is_sudo_stale_ignored env st' now u e h1 h2,
      fun h1 h2 => is_premium_stale_ignored env st' now u e h1 h2,
      fun h1 h2 => tokenActive_stale_ignored env st' now u e h1 h2⟩

/-- Concrete store: every user sudo, a token expiring at 500, premium
expiring at 1000. -/
def storeLive : Store :=
  ⟨fun _ => LookupResult.ok true, fun _ => LookupResult.ok (some ⟨500⟩),
   fun _ => LookupResult.ok (some ⟨1000⟩)⟩

/-- Environment with no owner configured and `storeLive` as the database. -/
def envLive : Env := ⟨none, some storeLive⟩

/-- Cache state holding one premium entry that expired at 80. -/
def staleState : BotState :=
  ⟨fun _ => none, fun _ => none, fun _ => some ⟨true, 80⟩⟩

/-- Witness for C4 at a concrete input: user 1 against `storeLive`, cached
at clock 100, re-checked at 159 and 161 — plus the stale-entry clause
instantiated on a premium entry that expired at 80, read at clock 100. -/
theorem cache_ttl_window_witness :
    (is_sudo envLive (is_sudo envLive emptyState 100 1).state (100 + 59) 1).result =
        (is_sudo envLive emptyState 100 1).result ∧
      (is_premium envLive (is_premium envLive emptyState 100 1).state
          (100 + 61) 1).effects.premiumLookups = 1 ∧
      (is_premium envLive staleState 100 1).result =
        (is_premium envLive
          { staleState with premiumCache := eraseCache staleState.premiumCache 1 }
          100 1).result := by
  have h := cache_ttl_window envLive storeLive emptyState 100 1 rfl rfl rfl rfl rfl
  exact ⟨h.1.1, h.2.1.2.1, ((h.2.2 staleState 100 ⟨true, 80⟩).2.1 rfl (by decide)).1⟩

/-- Batching is transparent to the outcomes: the dispatcher produces the
per-recipient send results in recipient order. -/
theorem dispatch_eq_map (plans : List RecipientPlan) :
    dispatch plans = plans.map (fun p => (sendOne p).1) := by
  have key : ∀ (n : Nat) (ps : List RecipientPlan), ps.length ≤ n →
      dispatch ps = ps.map (fun p => (sendOne p).1) := by
    intro n
    induction n with
    | zero =>
      intro ps hlen
      have hnil : ps = [] := List.eq_nil_of_length_eq_zero (Nat.le_zero.mp hlen)
      subst hnil
      simp [dispatch]
    | succ n ih =>
      intro ps hlen
      by_cases hne : ps = []
      · subst hne; simp [dispatch]
      · rw [dispatch, if_neg hne,
          ih (ps.drop 50) (by
            have h0 : 0 < ps.length := List.length_pos.mpr hne
            simp only [List.length_drop]
            omega),
          ← List.map_append, List.take_append_drop]
  exact key plans.length plans (Nat.le_refl _)

/-- Every outcome is either `sent` or `failed`, so the two tallies
partition any outcome list. -/
theorem sent_add_failed (outs : List Outcome) :
    sentCount outs + failedCount outs = outs.length := by
  have h := (List.filter_append_perm isSent outs).length_eq
  simpa [sentCount, failedCount] using h

/-- C6: for every recipient list, the completed job yields exactly one
terminal outcome per recipient, and the final report's success count plus
failure count equals the list's length. -/
theorem dispatch_accounts_every_recipient (plans : List RecipientPlan) :
    (dispatch plans).length = plans.length ∧
      sentCount (dispatch plans) + failedCount (dispatch plans) = plans.length := by
  refine ⟨by rw [dispatch_eq_map]; simp, ?_⟩
  rw [dispatch_eq_map, sent_add_failed]
  simp

/-- C7: in every scheduler state reachable from the start of a broadcast
job — whatever the batch sizes and whatever mix of successes, rate limits
and permanent failures the transport produces — at most 5 sends hold a
semaphore slot at once. -/
theorem concurrency_ceiling (batchSizes : List Nat) (s : DispatchState)
    (h : Relation.ReflTransGen DStep (initState batchSizes) s) :
    s.inFlight ≤ 5 := by
  induction h with
  | refl => simp [initState]
  | tail hab hstep ih =>
    cases hstep with
    | start hp hf => simp; omega
    | finish hf => simp; omega
    | retry hf => exact ih
    | loadBatch b rest hb hpp hff => simp

/-- Witness for C7 at a concrete input: a 3-recipient job after loading its
single batch and starting one send. -/
theorem concurrency_ceiling_witness :
    (⟨[], 2, 1, 0⟩ : DispatchState).inFlight ≤ 5 :=
  concurrency_ceiling [3] ⟨[], 2, 1, 0⟩
    (Relation.ReflTransGen.tail
      (Relation.ReflTransGen.tail Relation.ReflTransGen.refl
        (DStep.loadBatch (initState [3]) 3 [] rfl rfl rfl))
      (DStep.start ⟨[], 3, 0, 0⟩ (by decide) (by decide)))

/-- C8: for every recipient, the send loop makes exactly one retry per
rate-limit signal (total attempts = signals + 1), sleeps the signalled
delay plus 0.5 seconds for each signal (total delay in milliseconds is the
sum of `r * 1000 + 500` over the signals), and the terminal outcome is the
one produced by the attempt after the last signal — never the rejected
attempt. -/
theorem rate_limit_retry_model (plan : RecipientPlan) :
    (sendOne plan).2.1 = plan.rateLimits.length + 1 ∧
      (sendOne plan).2.2 = (plan.rateLimits.map (fun r => r * 1000 + 500)).sum ∧
      (sendOne plan).1 = plan.terminal.toOutcome := by
  obtain ⟨rls, t⟩ := plan
  induction rls with
  | nil => simp [sendOne]
  | cons r rest ih =>
    refine ⟨?_, ?_, ?_⟩
    · simp [sendOne, ih.1]
    · simp [sendOne, ih.2.1]
      omega
    · simp [sendOne, ih.2.2]

end QuizBot
